import Mathlib

/-!
Shallow embedding of `tirtha_bk/tirtha/models.py` (the lifecycle and
identity subsystem of the Tirtha project): the `Mesh`, `Contributor`,
`Contribution`, `Image`, `ARK` and `Run` records, their overridden `save`
methods, and the upload-path helpers `set_preview`, `set_thumbnail` and
`set_image`.  Persistence is modelled as explicit state passing over lists
of records; Python exceptions become `Except` results.
-/

namespace Tirtha

instance {ε α : Type} [DecidableEq ε] [DecidableEq α] : DecidableEq (Except ε α) := fun x y =>
  match x, y with
  | .ok a, .ok b => if h : a = b then .isTrue (by rw [h]) else .isFalse (by simp [h])
  | .error a, .error b => if h : a = b then .isTrue (by rw [h]) else .isFalse (by simp [h])
  | .ok _, .error _ => .isFalse (by simp)
  | .error _, .ok _ => .isFalse (by simp)

/-! ### Python string primitives

`str.startswith`, `str.endswith`, `str.replace`, `str.split` and
`str.lower` are modelled structurally over the character list of the
string (Lean's built-in counterparts use well-founded recursion over byte
positions, which a kernel evaluation cannot unfold). -/

/-- Python `s.startswith(p)`. -/
def pyStartsWith (s p : String) : Bool :=
  p.data.isPrefixOf s.data

/-- Python `s.endswith(p)`. -/
def pyEndsWith (s p : String) : Bool :=
  p.data.isSuffixOf s.data

/-- Python `s.replace(old, new)` restricted to the single-character
arguments the source uses (`.replace(" ", "_")`). -/
def pyReplace (s : String) (old new : Char) : String :=
  ⟨s.data.map (fun c => if c == old then new else c)⟩

/-- Python `s.lower()` over ASCII, as applied to filename extensions. -/
def pyToLower (s : String) : String :=
  ⟨s.data.map Char.toLower⟩

/-- Python `s.split(sep)` for a single-character separator: splits at every
occurrence, keeping empty parts, and returns at least one part. -/
def splitOnChar (sep : Char) : List Char → List (List Char)
  | [] => [[]]
  | c :: cs =>
      match splitOnChar sep cs, c == sep with
      | rest, true => [] :: rest
      | [], false => [[c]]
      | r :: rs, false => (c :: r) :: rs

/-- Model of `os.path.join` (POSIX) restricted to two components, as used by
`set_preview`, `set_thumbnail` and `set_image`: an absolute second component
replaces the first; otherwise the parts are joined, inserting `/` unless the
first part is empty or already ends with `/`. -/
def ospathJoin (a b : String) : String :=
  if pyStartsWith b "/" then b
  else if a == "" || pyEndsWith a "/" then a ++ b
  else a ++ "/" ++ b

/-- `set_preview(obj, filename)` from `models.py`: the caller-supplied
`filename` is shadowed by `f"{obj.ID}_prev.png"` and the result is
`os.path.join(f"models/{obj.ID}", f"{obj.ID}_prev.png")`.  The mesh object is
represented by its `ID` string. -/
def set_preview (meshID : String) (filename : String) : String :=
  ospathJoin ("models/" ++ meshID) (meshID ++ "_prev.png")

/-- `set_thumbnail(obj, filename)` from `models.py`: the caller-supplied
`filename` is shadowed by `f"{obj.ID}_thumb.png"`. -/
def set_thumbnail (meshID : String) (filename : String) : String :=
  ospathJoin ("models/" ++ meshID) (meshID ++ "_thumb.png")

/-- Python `filename.split('.')[-1]`: the split result is never empty, so
`getLastD` with any default is `[-1]`. -/
def lastDotToken (filename : String) : String :=
  ⟨(splitOnChar '.' filename.data).getLastD []⟩

/-- `set_image(obj, filename)` from `models.py`:
`os.path.join(f"models/{obj.contribution.mesh.ID}/images",
f"{str(obj.ID)}.{filename.split('.')[-1].lower()}")`.  The image object is
represented by its own `ID` and the owning mesh's `ID`. -/
def set_image (meshID : String) (imageID : String) (filename : String) : String :=
  ospathJoin ("models/" ++ meshID ++ "/images")
    (imageID ++ "." ++ pyToLower (lastDotToken filename))

/-! ## ARK -/

/-- The `ARK` record (`models.py` lines 301-349).  Fields not inspected by
`ARK.save` (`url`, `metadata`, `commitment`, `created_at`) are carried as
plain strings for fidelity of shape. -/
structure ARK where
  ark : String
  naan : String
  shoulder : String
  assigned_name : String
  url : String
  metadata : String
deriving Repr, DecidableEq

/-- The two `raise ValueError(...)` sites of `ARK.save` (the spec's error
taxonomy calls this category ValidationError). -/
inductive ArkSaveError where
  | shoulderMissingSlash (shoulder : String)
  | arkMismatch (expected got : String)
deriving Repr, DecidableEq

/-- Persistence of an ARK row: upsert by primary key `ark`. -/
def upsertARK (a : ARK) (db : List ARK) : List ARK :=
  a :: db.filter (fun o => o.ark != a.ark)

/-- `ARK.save` (`models.py` lines 342-349): raise if the shoulder does not
start with `/`; recompute `expected_ark = f"{naan}{shoulder}{assigned_name}"`
and raise if it differs from the stored `ark`; only then call
`super().save()`, modelled as the upsert into the store.  This override is
the single persistence entry point for ARK rows, so the checks run on every
persistence, and on error the store is left untouched. -/
def ARK.save (a : ARK) (db : List ARK) : Except ArkSaveError (List ARK) :=
  if ¬ pyStartsWith a.shoulder "/" then
    .error (.shoulderMissingSlash a.shoulder)
  else
    let expected_ark := a.naan ++ a.shoulder ++ a.assigned_name
    if a.ark ≠ expected_ark then
      .error (.arkMismatch expected_ark a.ark)
    else
      .ok (upsertARK a db)

/-- `ARK.__str__`: `f"ark:/{self.ark}"`. -/
def ARK.toStr (a : ARK) : String := "ark:/" ++ a.ark

/-! ## Mesh -/

/-- Pixel dimensions of a decoded image, standing in for a PIL image. -/
structure PILDims where
  width : Nat
  height : Nat
deriving Repr, DecidableEq

/-- `min_dimension` from `Mesh.save` (`models.py` line 157). -/
def min_dimension : Nat := 400

/-- The thumbnail resize arithmetic of `Mesh.save` (`models.py` lines
152-169): when `image.width >= 400 and image.height >= 400`, the branch on
`aspect_ratio > 1` (equivalently `width > height`, since `aspect_ratio =
width / height` with positive operands) fixes the shorter dimension at 400
and scales the other; otherwise `new_width`/`new_height` keep their initial
values, i.e. the image is resized to its own size.  Python's
`int(min_dimension * aspect_ratio)` and `int(min_dimension / aspect_ratio)`
(float arithmetic truncated toward zero) are modelled by exact
natural-number floor division. -/
def resizeThumbnail (img : PILDims) : PILDims :=
  if min_dimension ≤ img.width ∧ min_dimension ≤ img.height then
    if img.height < img.width then
      ⟨max min_dimension (min_dimension * img.width / img.height), min_dimension⟩
    else
      ⟨min_dimension, max min_dimension (min_dimension * img.height / img.width)⟩
  else
    ⟨img.width, img.height⟩

/-- The `Mesh` record (`models.py` lines 35-175), restricted to the fields
its `save` override reads or writes plus the intake gate `completed`; the
thumbnail image file is carried as optional pixel dimensions. -/
structure Mesh where
  ID : String
  name : String
  country : String
  state : String
  district : String
  verbose_id : String
  completed : Bool
  hidden : Bool
  thumbnail : Option PILDims
deriving Repr, DecidableEq

/-- The `verbose_id` expression of `Mesh.save` (`models.py` lines 144-146):
`(country + "__" + state + "__" + district + "__" + name).replace(" ", "_")`. -/
def Mesh.computeVerboseId (m : Mesh) : String :=
  pyReplace (m.country ++ "__" ++ m.state ++ "__" ++ m.district ++ "__" ++ m.name) ' ' '_'

/-- The `unique=True` constraint on `Mesh.verbose_id` (`models.py` line 62):
persistence of the row with primary key `id` and slug `vid` fails when any
other row (different primary key) holds the same `verbose_id`. -/
def verboseIdCollides (id vid : String) (db : List Mesh) : Bool :=
  db.any (fun o => o.ID != id && o.verbose_id == vid)

/-- Persistence of a Mesh row: upsert by primary key `ID`. -/
def upsertMesh (m : Mesh) (db : List Mesh) : List Mesh :=
  m :: db.filter (fun o => o.ID != m.ID)

/-- `Mesh.save` (`models.py` lines 143-175): unconditionally recompute
`verbose_id`, then `super().save()` — which fails with the store's
uniqueness violation when the slug collides with another Mesh's — and, when a
thumbnail is present, re-encode it through the resize arithmetic and save
again.  Returns the stored record and the updated store. -/
def Mesh.save (m : Mesh) (db : List Mesh) : Except Unit (Mesh × List Mesh) :=
  let m₁ := { m with verbose_id := m.computeVerboseId }
  if verboseIdCollides m₁.ID m₁.verbose_id db then
    .error ()
  else
    match m₁.thumbnail with
    | none => .ok (m₁, upsertMesh m₁ db)
    | some img =>
        let m₂ := { m₁ with thumbnail := some (resizeThumbnail img) }
        .ok (m₂, upsertMesh m₂ db)

/-! ## Contributor, Contribution and intake -/

/-- The `Contributor` record (`models.py` lines 178-215), restricted to the
fields the intake gate reads. -/
structure Contributor where
  ID : String
  name : String
  email : String
  active : Bool
  banned : Bool
deriving Repr, DecidableEq

/-- The `Contribution` record (`models.py` lines 218-240). -/
structure Contribution where
  ID : String
  meshID : String
  contributorID : String
  processed : Bool
deriving Repr, DecidableEq

/-- The spec's IntakeRejected error, distinguishing the two violated
preconditions. -/
inductive IntakeError where
  | meshClosed
  | contributorBanned
deriving Repr, DecidableEq

/-- Modelled from the spec: the Contribution Intake entry point
(`intake(mesh, contributor, images) -> Contribution`, spec §4.6) is not in
`models.py`, the only source file available — that file holds only the
`Contribution` record declaration.  Per the spec, intake fails with
IntakeRejected (mesh closed / contributor banned) when `mesh.completed` or
`contributor.banned`, creating no Contribution record; otherwise it records
one Contribution.  The store of Contribution rows is returned alongside the
result so that rejection visibly leaves it unchanged. -/
def intake (m : Mesh) (c : Contributor) (images : List String)
    (newID : String) (db : List Contribution) :
    Except IntakeError Contribution × List Contribution :=
  if m.completed then
    (.error .meshClosed, db)
  else if c.banned then
    (.error .contributorBanned, db)
  else
    let contribution : Contribution := ⟨newID, m.ID, c.ID, false⟩
    (.ok contribution, contribution :: db)

/-! ## Run -/

/-- A naive wall-clock timestamp, standing in for `datetime`. -/
structure PyDatetime where
  year : Nat
  month : Nat
  day : Nat
  hour : Nat
  minute : Nat
  second : Nat
deriving Repr, DecidableEq

/-- Zero-padded two-digit field, as produced by strftime's `%m`, `%d`, `%H`,
`%M`, `%S`. -/
def pad2 (n : Nat) : String :=
  if n < 10 then "0" ++ toString n else toString n

/-- `started_at.strftime('%Y-%m-%d-%H-%M-%S')` from `Run.save` (`models.py`
line 424).  `%Y` is the year with century, printed without extra padding as
CPython on glibc does; all run timestamps are four-digit years. -/
def strftimeYmdHMS (t : PyDatetime) : String :=
  toString t.year ++ "-" ++ pad2 t.month ++ "-" ++ pad2 t.day ++ "-" ++
    pad2 t.hour ++ "-" ++ pad2 t.minute ++ "-" ++ pad2 t.second

/-- Django `on_delete` rules appearing in `models.py`. -/
inductive OnDelete where
  | cascade
  | doNothing
deriving Repr, DecidableEq

/-- The deletion rule declared on `Run.ark` (`models.py` line 361):
`on_delete=models.DO_NOTHING`, i.e. non-cascading. -/
def runArkOnDelete : OnDelete := .doNothing

/-- The `Run` record (`models.py` lines 352-425), restricted to the fields
its `save` override and the lifecycle claims read: the bound ARK is carried
as the optional primary key of the referenced ARK row (`null=True` on the
one-to-one field). -/
structure Run where
  ID : String
  meshID : String
  ark : Option String
  started_at : PyDatetime
  directory : String
  status : String
deriving Repr, DecidableEq

/-- The directory expression of `Run.save` (`models.py` line 424):
`f"{self.mesh.ID}/cache/{self.started_at.strftime('%Y-%m-%d-%H-%M-%S')}__{str(self.ID)}"`. -/
def runDirectory (r : Run) : String :=
  r.meshID ++ "/cache/" ++ strftimeYmdHMS r.started_at ++ "__" ++ r.ID

/-- `Run.save` (`models.py` lines 421-425): first `super().save()` —
on the first insert this is what populates the auto-assigned `ID`
(ShortUUIDField) and `started_at` (`auto_now_add`), which the embedding
represents by those fields already being concrete on the record — then, only
`if not self.directory` (the empty string is the unset value of the blank
CharField), derive the directory, and persist it with
`super().save(update_fields=["directory"])`. -/
def Run.save (r : Run) : Run :=
  if r.directory = "" then { r with directory := runDirectory r } else r

/-- The spec's IllegalTransition error. -/
inductive TransitionError where
  | illegalTransition (msg : String)
deriving Repr, DecidableEq

/-- Modelled from the spec: the Run Lifecycle transition guard (spec §4.5,
§7) is not in `models.py`, the only source file available — that file holds
only the `status` column declaration with choices Processing/Error/Archived
and the nullable one-to-one `ark` field.  Per the spec, a transition of
`status` to Archived is permitted only when an ARK is already bound;
attempting it with the ARK reference unset fails with IllegalTransition
instead of silently proceeding. -/
def Run.setStatus (r : Run) (new : String) : Except TransitionError Run :=
  if new = "Archived" ∧ r.ark = none then
    .error (.illegalTransition "cannot archive a Run with no bound ARK")
  else
    .ok { r with status := new }

/-! ## The store and Run deletion -/

/-- The rows of the store relevant to Run deletion. -/
structure Store where
  runs : List Run
  arks : List ARK
deriving Repr, DecidableEq

/-- Deleting a Run row.  The only relationship from `Run` toward `ARK` is
the forward one-to-one field `Run.ark` with `on_delete=models.DO_NOTHING`
(`models.py` line 361): deletion collects the Run row itself and, the rule
being non-cascading, touches no ARK row. -/
def deleteRun (runID : String) (s : Store) : Store :=
  { s with runs := s.runs.filter (fun r => r.ID != runID) }

/-- Resolution of `ark:/{ark}` against the store: look up the ARK row by its
primary key. -/
def resolveArk (key : String) (s : Store) : Option ARK :=
  s.arks.find? (fun a => a.ark == key)

/-! ## Concrete records used by the witnesses -/

/-- An ARK as in the worked example of the spec: well-formed shoulder and a
consistent `ark` field. -/
def arkGood : ARK :=
  ⟨"99999/fk4abc123", "99999", "/fk4", "abc123", "https://example.org/m.glb", "meta"⟩

/-- The same components with the malformed shoulder `fk4` (no leading
separator) and the correspondingly concatenated `ark` field. -/
def arkBadShoulder : ARK :=
  ⟨"99999fk4abc123", "99999", "fk4", "abc123", "https://example.org/m.glb", "meta"⟩

/-- A freshly inserted Run, directory not yet assigned. -/
def runBefore : Run :=
  ⟨"R0000000000000001", "M0000000000000001", none, ⟨2024, 3, 2, 10, 15, 0⟩,
    "", "Processing"⟩

/-- A Run with a bound ARK. -/
def runWithArk : Run :=
  ⟨"R0000000000000002", "M0000000000000001", some "99999/fk4abc123",
    ⟨2024, 3, 2, 11, 0, 0⟩,
    "M0000000000000001/cache/2024-03-02-11-00-00__R0000000000000002", "Processing"⟩

/-- The Mesh of the worked example of the spec, with the stale placeholder
`verbose_id` it carries before its first save. -/
def meshLingaraj : Mesh :=
  ⟨"M0000000000000001", "Lingaraj Temple", "India", "Odisha", "Khordha",
    "<auto-generated using country, state & district>", false, false, none⟩

/-- A distinct Mesh whose stored slug collides with the recomputed slug of
`meshLingaraj`. -/
def meshOther : Mesh :=
  ⟨"M0000000000000002", "Other", "Elsewhere", "State", "District",
    "India__Odisha__Khordha__Lingaraj_Temple", false, false, none⟩

/-- A Mesh accepting no further contributions. -/
def meshDone : Mesh :=
  ⟨"M0000000000000003", "Konark Sun Temple", "India", "Odisha", "Puri",
    "India__Odisha__Puri__Konark_Sun_Temple", true, false, none⟩

/-- An unbanned contributor. -/
def contribAlice : Contributor :=
  ⟨"c0000001", "Alice", "alice@example.org", true, false⟩

/-- A banned contributor. -/
def contribBanned : Contributor :=
  ⟨"c0000002", "Bob", "bob@example.org", true, true⟩

/-- A Mesh with a landscape thumbnail of 500x300 pixels. -/
def mesh500x300 : Mesh :=
  { meshLingaraj with
    ID := "M0000000000000004"
    name := "Temple A"
    thumbnail := some ⟨500, 300⟩ }

/-- A Mesh with a landscape thumbnail of 800x600 pixels. -/
def mesh800x600 : Mesh :=
  { meshLingaraj with
    ID := "M0000000000000005"
    name := "Temple B"
    thumbnail := some ⟨800, 600⟩ }

/-! ## Helper lemmas -/

theorem data_ne_nil (s : String) (h : s ≠ "") : s.data ≠ [] := by
  intro h'
  exact h (String.ext h')

theorem append_ne_empty_left (s t : String) (h : s ≠ "") : s ++ t ≠ "" := by
  intro h'
  apply h
  apply String.ext
  have hd := congrArg String.data h'
  rw [String.data_append] at hd
  exact (List.append_eq_nil.mp hd).1

theorem append_ne_empty_right (s t : String) (h : t ≠ "") : s ++ t ≠ "" := by
  intro h'
  apply h
  apply String.ext
  have hd := congrArg String.data h'
  rw [String.data_append] at hd
  exact (List.append_eq_nil.mp hd).2

theorem isPrefixOf_single_append (c : Char) (l₁ l₂ : List Char) (h : l₁ ≠ []) :
    [c].isPrefixOf (l₁ ++ l₂) = [c].isPrefixOf l₁ := by
  cases l₁ with
  | nil => exact absurd rfl h
  | cons d ds => simp [List.isPrefixOf]

/-- Whether a string starts with the separator is decided by its (nonempty)
first part. -/
theorem pyStartsWith_slash_append (s t : String) (hs : s ≠ "") :
    pyStartsWith (s ++ t) "/" = pyStartsWith s "/" := by
  unfold pyStartsWith
  rw [String.data_append]
  have hd : ("/" : String).data = ['/'] := rfl
  rw [hd]
  exact isPrefixOf_single_append '/' s.data t.data (data_ne_nil s hs)

/-- Whether a string ends with the separator is decided by its (nonempty)
last part. -/
theorem pyEndsWith_slash_append (s t : String) (ht : t ≠ "") :
    pyEndsWith (s ++ t) "/" = pyEndsWith t "/" := by
  unfold pyEndsWith
  rw [String.data_append]
  have hd : ("/" : String).data = ['/'] := rfl
  rw [hd]
  unfold List.isSuffixOf
  rw [List.reverse_append]
  have hrev : t.data.reverse ≠ [] := by
    simpa using data_ne_nil t ht
  simpa using isPrefixOf_single_append '/' t.data.reverse s.data.reverse hrev

theorem append_images_slash (s : String) : s ++ "/images" ++ "/" = s ++ "/images/" := by
  rw [String.append_assoc]
  congr 1

theorem runDirectory_ne_empty (r : Run) : runDirectory r ≠ "" := by
  intro h
  have hl := congrArg String.length h
  rw [runDirectory, String.length_append, String.length_append,
    String.length_append, String.length_append] at hl
  have h1 : ("/cache/" : String).length = 7 := rfl
  have h2 : ("__" : String).length = 2 := rfl
  have h3 : ("" : String).length = 0 := rfl
  rw [h1, h2, h3] at hl
  omega

/-! ## The claims -/

/-- **C1.** An `ARK.save` succeeds exactly when the stored `ark` field equals
the concatenation `naan ++ shoulder ++ assigned_name` and the shoulder starts
with `/`; a violating save returns an error instead of persisting (the error
is raised before `super().save()`, so the store is untouched), and the check
sits in the single persistence entry point, so it runs on every persistence
of an ARK record. -/
theorem C1_ark_save_validation (a : ARK) (db : List ARK) :
    (ARK.save a db = .ok (upsertARK a db) ↔
      (pyStartsWith a.shoulder "/" = true ∧
        a.ark = a.naan ++ a.shoulder ++ a.assigned_name)) ∧
    (¬ (pyStartsWith a.shoulder "/" = true ∧
        a.ark = a.naan ++ a.shoulder ++ a.assigned_name) →
      ∃ e, ARK.save a db = .error e) := by
  unfold ARK.save
  by_cases h1 : pyStartsWith a.shoulder "/" = true
  · by_cases h2 : a.ark = a.naan ++ a.shoulder ++ a.assigned_name
    · simp [h1, h2]
    · simp [h1, h2]
  · simp [h1]

/-- Witness for C1: the spec's worked example. Minting with `naan="99999"`,
`shoulder="/fk4"`, `assigned_name="abc123"` and `ark="99999/fk4abc123"`
persists; the same components with `shoulder="fk4"` fail. -/
theorem C1_witness :
    ARK.save arkGood [] = .ok (upsertARK arkGood []) ∧
    (∃ e, ARK.save arkBadShoulder [] = .error e) :=
  ⟨(C1_ark_save_validation arkGood []).1.mpr (by decide),
   (C1_ark_save_validation arkBadShoulder []).2 (by decide)⟩

/-- **C2.** Deleting a Run touches no ARK row: the ARK table is unchanged,
every ARK stays resolvable by its key, and the deletion rule declared on
`Run.ark` is the non-cascading `DO_NOTHING`. -/
theorem C2_run_delete_preserves_ark (runID : String) (s : Store) :
    (deleteRun runID s).arks = s.arks ∧
    (∀ key, resolveArk key (deleteRun runID s) = resolveArk key s) ∧
    runArkOnDelete = .doNothing :=
  ⟨rfl, fun _ => rfl, rfl⟩

/-- **C3.** A Run's `directory` is assigned exactly once: the first save of a
Run with the blank directory derives it, a save of a Run whose directory is
already set leaves it unchanged, and `Run.save` is idempotent, so a retried
second-phase write never recomputes the path. -/
theorem C3_run_directory_set_once (r : Run) :
    (r.directory = "" → (Run.save r).directory = runDirectory r) ∧
    (r.directory ≠ "" → (Run.save r).directory = r.directory) ∧
    Run.save (Run.save r) = Run.save r := by
  by_cases h : r.directory = ""
  · refine ⟨fun _ => by simp [Run.save, h], fun h' => absurd h h', ?_⟩
    have h1 : Run.save r = { r with directory := runDirectory r } := by
      simp [Run.save, h]
    rw [h1]
    simp [Run.save, runDirectory_ne_empty r]
  · refine ⟨fun h' => absurd h' h, fun _ => by simp [Run.save, h], ?_⟩
    simp [Run.save, h]

/-- Witness for C3: the directory of a fresh Run is derived on the first save
and a repeated save changes nothing. -/
theorem C3_witness :
    (Run.save runBefore).directory = runDirectory runBefore ∧
    Run.save (Run.save runBefore) = Run.save runBefore :=
  ⟨(C3_run_directory_set_once runBefore).1 rfl,
   (C3_run_directory_set_once runBefore).2.2⟩

/-- **C4.** The derived directory is
`{MeshID}/cache/{YYYY-MM-DD-HH-MM-SS}__{RunID}`, the timestamp being the
Run's start timestamp with hyphen-separated zero-padded fields. -/
theorem C4_run_directory_format (r : Run) (h : r.directory = "") :
    (Run.save r).directory =
      r.meshID ++ "/cache/" ++ strftimeYmdHMS r.started_at ++ "__" ++ r.ID := by
  simp [Run.save, h, runDirectory]

/-- Witness for C4: the spec's worked example. A Run started at
2024-03-02 10:15:00 with ID `R0000000000000001` on Mesh `M0000000000000001`
derives `M0000000000000001/cache/2024-03-02-10-15-00__R0000000000000001`. -/
theorem C4_witness :
    runBefore.directory = "" ∧
    (Run.save runBefore).directory =
      "M0000000000000001/cache/2024-03-02-10-15-00__R0000000000000001" :=
  ⟨rfl, (C4_run_directory_format runBefore rfl).trans (by decide)⟩

/-- **C5.** Every save of a Mesh recomputes `verbose_id` as
`country__state__district__name` with spaces replaced by underscores — the
stored record carries the recomputed slug whatever value the field held
before — and persistence fails when the recomputed slug equals another
Mesh's `verbose_id`. -/
theorem C5_mesh_verbose_id (m : Mesh) (db : List Mesh) :
    (∀ m' db', Mesh.save m db = .ok (m', db') →
      m'.verbose_id = m.computeVerboseId) ∧
    ((∃ o ∈ db, o.ID ≠ m.ID ∧ o.verbose_id = m.computeVerboseId) →
      Mesh.save m db = .error ()) := by
  constructor
  · intro m' db' h
    by_cases hc : verboseIdCollides m.ID m.computeVerboseId db = true
    · simp [Mesh.save, hc] at h
    · cases hm : m.thumbnail with
      | none =>
          simp [Mesh.save, hc, hm] at h
          rw [← h.1]
      | some img =>
          simp [Mesh.save, hc, hm] at h
          rw [← h.1]
  · rintro ⟨o, ho, hne, heq⟩
    have hc : verboseIdCollides m.ID m.computeVerboseId db = true := by
      unfold verboseIdCollides
      rw [List.any_eq_true]
      exact ⟨o, ho, by simp [hne, heq]⟩
    unfold Mesh.save
    simp [hc]

/-- Witness for C5: the spec's worked example. Saving the Lingaraj Temple
mesh stores `verbose_id = "India__Odisha__Khordha__Lingaraj_Temple"`, and a
save into a store holding another Mesh with that slug fails. -/
theorem C5_witness :
    Except.map (fun p => p.1.verbose_id) (Mesh.save meshLingaraj []) =
      .ok "India__Odisha__Khordha__Lingaraj_Temple" ∧
    Mesh.save meshLingaraj [meshOther] = .error () := by
  refine ⟨by decide, ?_⟩
  exact (C5_mesh_verbose_id meshLingaraj [meshOther]).2
    ⟨meshOther, by simp, by decide, by decide⟩

/-- **C6.** (Modelled from the spec; the transition guard is implemented
outside `models.py`.)  A transition of a Run's `status` to `Archived` fails
with IllegalTransition while the Run's ARK reference is unset, and succeeds
once an ARK is bound. -/
theorem C6_archive_requires_ark (r : Run) :
    (r.ark = none →
      Run.setStatus r "Archived" =
        .error (.illegalTransition "cannot archive a Run with no bound ARK")) ∧
    (r.ark ≠ none →
      Run.setStatus r "Archived" = .ok { r with status := "Archived" }) := by
  constructor
  · intro h
    simp [Run.setStatus, h]
  · intro h
    simp [Run.setStatus, h]

/-- Witness for C6: archiving the ARK-less `runBefore` fails with
IllegalTransition; archiving `runWithArk` succeeds. -/
theorem C6_witness :
    Run.setStatus runBefore "Archived" =
      .error (.illegalTransition "cannot archive a Run with no bound ARK") ∧
    Run.setStatus runWithArk "Archived" = .ok { runWithArk with status := "Archived" } :=
  ⟨(C6_archive_requires_ark runBefore).1 rfl,
   (C6_archive_requires_ark runWithArk).2 (by decide)⟩

/-- **C7.** (Modelled from the spec; the intake entry point is implemented
outside `models.py`.)  Intake against a completed Mesh fails with
IntakeRejected naming the closed mesh, intake by a banned Contributor fails
with IntakeRejected naming the ban, and in either rejection case the store
of Contribution records is returned unchanged — zero records created. -/
theorem C7_intake_rejection (m : Mesh) (c : Contributor) (images : List String)
    (newID : String) (db : List Contribution) :
    (m.completed = true → intake m c images newID db = (.error .meshClosed, db)) ∧
    (m.completed = false → c.banned = true →
      intake m c images newID db = (.error .contributorBanned, db)) ∧
    ((m.completed = true ∨ c.banned = true) →
      (intake m c images newID db).2 = db) := by
  refine ⟨fun h => by simp [intake, h], fun h hb => by simp [intake, h, hb], fun h => ?_⟩
  rcases h with h | h
  · simp [intake, h]
  · by_cases hm : m.completed = true
    · simp [intake, hm]
    · simp only [Bool.not_eq_true] at hm
      simp [intake, hm, h]

/-- Witness for C7: intake against the completed `meshDone` is rejected as
mesh-closed; intake by the banned contributor against the open
`meshLingaraj` is rejected as contributor-banned; both leave the store
empty. -/
theorem C7_witness :
    intake meshDone contribAlice ["a.jpg"] "cid1" [] = (.error .meshClosed, []) ∧
    intake meshLingaraj contribBanned ["b.jpg"] "cid2" [] =
      (.error .contributorBanned, []) :=
  ⟨(C7_intake_rejection meshDone contribAlice ["a.jpg"] "cid1" []).1 rfl,
   (C7_intake_rejection meshLingaraj contribBanned ["b.jpg"] "cid2" []).2.1 rfl rfl⟩

/-- Refutation of C8 as stated: a 500x300 thumbnail does not have both
dimensions below 400, yet a save of its Mesh leaves it at 500x300 — neither
stored dimension is the claimed normalized 400. The source resizes only when
*both* dimensions are at least 400. -/
theorem C8_counterexample :
    Except.map (fun p => p.1.thumbnail) (Mesh.save mesh500x300 []) =
      .ok (some ⟨500, 300⟩) ∧
    ¬ (500 < min_dimension ∧ 300 < min_dimension) ∧
    500 ≠ min_dimension ∧ 300 ≠ min_dimension := by
  decide

/-- Helper for C8: the resize arithmetic normalizes the shorter dimension to
400 when both dimensions are at least 400 (height for landscape, width for
portrait or square) and otherwise returns the dimensions unchanged. -/
theorem resizeThumbnail_spec (img : PILDims) :
    ((min_dimension ≤ img.width ∧ min_dimension ≤ img.height) →
      (if img.height < img.width
        then (resizeThumbnail img).height = min_dimension
        else (resizeThumbnail img).width = min_dimension) ∧
      min (resizeThumbnail img).width (resizeThumbnail img).height = min_dimension) ∧
    (¬ (min_dimension ≤ img.width ∧ min_dimension ≤ img.height) →
      resizeThumbnail img = img) := by
  constructor
  · intro h
    unfold resizeThumbnail
    rw [if_pos h]
    by_cases hl : img.height < img.width
    · simp only [if_pos hl]
      exact ⟨trivial, Nat.min_eq_right (Nat.le_max_left _ _)⟩
    · simp only [if_neg hl]
      exact ⟨trivial, Nat.min_eq_left (Nat.le_max_left _ _)⟩
  · intro h
    unfold resizeThumbnail
    rw [if_neg h]

/-- **C8 (amended).** On every successful save of a Mesh with a thumbnail,
the stored thumbnail is the resize of the original; the resize normalizes
the shorter dimension to 400px (height for landscape, width for portrait)
only when **both** dimensions are at least 400px, and leaves the image at
its original size when **either** dimension is below 400px. -/
theorem C8_thumbnail_resize_amended (m : Mesh) (db : List Mesh) (img : PILDims)
    (hthumb : m.thumbnail = some img)
    (hok : (Mesh.save m db).isOk = true) :
    Except.map (fun p => p.1.thumbnail) (Mesh.save m db) =
      .ok (some (resizeThumbnail img)) ∧
    ((min_dimension ≤ img.width ∧ min_dimension ≤ img.height) →
      (if img.height < img.width
        then (resizeThumbnail img).height = min_dimension
        else (resizeThumbnail img).width = min_dimension) ∧
      min (resizeThumbnail img).width (resizeThumbnail img).height = min_dimension) ∧
    (¬ (min_dimension ≤ img.width ∧ min_dimension ≤ img.height) →
      resizeThumbnail img = img) := by
  refine ⟨?_, (resizeThumbnail_spec img).1, (resizeThumbnail_spec img).2⟩
  by_cases hc : verboseIdCollides m.ID m.computeVerboseId db = true
  · have hbad : Mesh.save m db = .error () := by simp [Mesh.save, hc]
    rw [hbad] at hok
    simp [Except.isOk, Except.toBool] at hok
  · simp [Mesh.save, hc, hthumb, Except.map]

/-- Witness for C8: saving the Mesh with the 800x600 thumbnail stores it
resized to 533x400 — the shorter dimension normalized to 400 with the aspect
ratio preserved up to truncation. -/
theorem C8_witness :
    Except.map (fun p => p.1.thumbnail) (Mesh.save mesh800x600 []) =
      .ok (some ⟨533, 400⟩) :=
  ((C8_thumbnail_resize_amended mesh800x600 [] ⟨800, 600⟩ rfl (by decide)).1).trans
    (by decide)

/-- **C9.** For every accepted Image whose ID does not begin with the path
separator (image IDs are UUID strings), the stored path is
`models/{MeshID}/images/{ImageID}.{ext}` where `ext` is the last
`.`-separated token of the original filename, lower-cased. -/
theorem C9_image_path (meshID imageID filename : String)
    (h : pyStartsWith imageID "/" = false) :
    set_image meshID imageID filename =
      "models/" ++ meshID ++ "/images/" ++ imageID ++ "." ++
        pyToLower (lastDotToken filename) := by
  have hbne : (imageID ++ "." : String) ≠ "" :=
    append_ne_empty_right imageID "." (by decide)
  have hb : pyStartsWith (imageID ++ "." ++ pyToLower (lastDotToken filename)) "/"
      = false := by
    rw [pyStartsWith_slash_append (imageID ++ ".") _ hbne]
    by_cases hid : imageID = ""
    · subst hid
      decide
    · rw [pyStartsWith_slash_append imageID "." hid]
      exact h
  have hane : ("models/" ++ meshID ++ "/images" : String) ≠ "" :=
    append_ne_empty_right _ _ (by decide)
  have haeq : (("models/" ++ meshID ++ "/images" : String) == "") = false :=
    beq_eq_false_iff_ne.mpr hane
  have hae : pyEndsWith ("models/" ++ meshID ++ "/images") "/" = false := by
    rw [pyEndsWith_slash_append _ "/images" (by decide)]
    decide
  unfold set_image ospathJoin
  simp only [hb, haeq, hae, Bool.or_false, Bool.false_eq_true, if_false]
  rw [append_images_slash ("models/" ++ meshID)]
  simp [String.append_assoc]

/-- Witness for C9: an image of UUID-style ID `0e8f1c2a` contributed to Mesh
`M0000000000000001` with original filename `photo.JPG` is stored at
`models/M0000000000000001/images/0e8f1c2a.jpg`. -/
theorem C9_witness :
    set_image "M0000000000000001" "0e8f1c2a" "photo.JPG" =
      "models/M0000000000000001/images/0e8f1c2a.jpg" :=
  (C9_image_path "M0000000000000001" "0e8f1c2a" "photo.JPG" (by decide)).trans
    (by decide)

/-- **C10.** For every Mesh whose ID is nonempty and has no path separator at
either end (mesh IDs are 16-character alphanumeric short IDs) and every
uploaded filename, the preview path is `models/{MeshID}/{MeshID}_prev.png`
and the thumbnail path is `models/{MeshID}/{MeshID}_thumb.png`: the
caller-supplied filename is ignored entirely and the stored name always
carries the fixed `.png` suffix. -/
theorem C10_preview_thumbnail_paths (meshID f g : String)
    (h0 : meshID ≠ "") (h1 : pyStartsWith meshID "/" = false)
    (h2 : pyEndsWith meshID "/" = false) :
    set_preview meshID f = "models/" ++ meshID ++ "/" ++ meshID ++ "_prev.png" ∧
    set_thumbnail meshID f = "models/" ++ meshID ++ "/" ++ meshID ++ "_thumb.png" ∧
    set_preview meshID f = set_preview meshID g ∧
    set_thumbnail meshID f = set_thumbnail meshID g := by
  have hb1 : pyStartsWith (meshID ++ "_prev.png") "/" = false := by
    rw [pyStartsWith_slash_append meshID _ h0]
    exact h1
  have hb2 : pyStartsWith (meshID ++ "_thumb.png") "/" = false := by
    rw [pyStartsWith_slash_append meshID _ h0]
    exact h1
  have hane : ("models/" ++ meshID : String) ≠ "" :=
    append_ne_empty_left _ _ (by decide)
  have haeq : (("models/" ++ meshID : String) == "") = false :=
    beq_eq_false_iff_ne.mpr hane
  have hae : pyEndsWith ("models/" ++ meshID) "/" = false := by
    rw [pyEndsWith_slash_append "models/" meshID h0]
    exact h2
  refine ⟨?_, ?_, rfl, rfl⟩
  · unfold set_preview ospathJoin
    simp [hb1, haeq, hae, String.append_assoc]
  · unfold set_thumbnail ospathJoin
    simp [hb2, haeq, hae, String.append_assoc]

/-- Witness for C10: for Mesh `M0000000000000001`, an uploaded `upload.JPG`
is stored as the fixed preview name and an uploaded `pic.webp` as the fixed
thumbnail name, both with the `.png` suffix. -/
theorem C10_witness :
    set_preview "M0000000000000001" "upload.JPG" =
      "models/M0000000000000001/M0000000000000001_prev.png" ∧
    set_thumbnail "M0000000000000001" "pic.webp" =
      "models/M0000000000000001/M0000000000000001_thumb.png" :=
  ⟨((C10_preview_thumbnail_paths "M0000000000000001" "upload.JPG" "pic.webp"
      (by decide) (by decide) (by decide)).1).trans (by decide),
   ((C10_preview_thumbnail_paths "M0000000000000001" "pic.webp" "upload.JPG"
      (by decide) (by decide) (by decide)).2.1).trans (by decide)⟩

end Tirtha
